import Mathlib

/-!
Verification of the silicontraffic movement-graph builder and traffic monitor.

Shallow embedding of the Python sources:
  - `road_net/road_net.py` (Junction/Edge/Lane/LaneLink/TrafficLight/Phase/RoadNet)
  - `movement_modeling/movement.py`, `movement_modeling/movement_road_net.py`
  - `monitor/movements_monitor.py`, `monitor/global_monitor.py`,
    `monitor/abstract_monitor.py`
  - `abstract_traffic_env_engine.py` (the `TrafficEnvEngine` capability surface)

Conventions: Python `float` values that the code only adds, subtracts,
divides and compares are modelled as `Rat`; dicts (which preserve insertion
order) are modelled as association lists with unique keys; Python object
references are modelled either by inlining the navigated fields (`LaneRef`)
or, for the mutable `Movement` objects of the builder, by indices into a
store list (`BuildState.store`), which mirrors Python heap identity.
Exceptions are modelled with `Except`.
-/

namespace SiliconTraffic

/-- Association-list lookup, mirroring Python `dict.get(k)` on an
insertion-ordered dict with unique keys. -/
def aget? {α : Type} (m : List (String × α)) (k : String) : Option α :=
  (m.find? (fun p => p.1 == k)).map (fun p => p.2)

/-- Python `d[k] = v`: replace the value at an existing key in place,
otherwise append a new key. -/
def aset {α : Type} (m : List (String × α)) (k : String) (v : α) :
    List (String × α) :=
  if (aget? m k).isSome then
    m.map (fun p => if p.1 == k then (p.1, v) else p)
  else m ++ [(k, v)]

/-- Python `if k not in d: d[k] = []` followed by `d[k].append(v)`. -/
def apush {α : Type} (m : List (String × List α)) (k : String) (v : α) :
    List (String × List α) :=
  if (aget? m k).isSome then
    m.map (fun p => if p.1 == k then (p.1, p.2 ++ [v]) else p)
  else m ++ [(k, [v])]

/-- The fields of a `Lane` object that a `LaneLink` navigates through
(`link.from_lane.id`, `link.to_lane.parent_edge.id`); inlined to break the
reference cycle of the Python object graph. -/
structure LaneRef where
  id : String
  parent_edge_id : String
deriving DecidableEq, Repr

/-- `LaneLink` (road_net.py). `link_lane` and `type` are carried but, as in
the Python `__eq__`, equality of links is tested only on the
(from-lane id, to-lane id) pair, see `link_eq`. -/
structure LaneLink where
  from_lane : LaneRef
  to_lane : LaneRef
  link_lane_id : String
  link_type : Option String := none
deriving DecidableEq, Repr

/-- `LaneLink.__eq__`: equality solely by the (from-lane id, to-lane id)
pair. -/
def link_eq (a b : LaneLink) : Bool :=
  a.from_lane.id == b.from_lane.id && a.to_lane.id == b.to_lane.id

/-- Python `link in links` membership, which uses `LaneLink.__eq__`. -/
def link_mem (a : LaneLink) (links : List LaneLink) : Bool :=
  links.any (fun b => link_eq b a)

/-- `TrafficLightPhase` (road_net.py). The `parent_trafficlight` back
reference is replaced by the parent's id, which is all the code reads from
it (to compute `phase.id` in `__post_init__`). -/
structure TrafficLightPhase where
  index : Nat
  duration : Rat
  parent_trafficlight_id : String
  available_links : List LaneLink
deriving DecidableEq, Repr

/-- `TrafficLightPhase.id`, set in `__post_init__` as
`f'{parent.id}_phase_{index}'`. -/
def phase_id (ph : TrafficLightPhase) : String :=
  ph.parent_trafficlight_id ++ "_phase_" ++ toString ph.index

/-- `TrafficLight` (road_net.py). The `_uncontrolled_links` cache is pure
memoisation and is not part of the state (nor of dataclass equality). -/
structure TrafficLight where
  id : String
  controlled_links : List LaneLink
  phases : List TrafficLightPhase
deriving DecidableEq, Repr

/-- `TrafficLight.uncontrolled_links` (road_net.py lines 65-87): a
controlled link is kept when NO phase lacks it, i.e. when it is available
in every phase. -/
def uncontrolled_links (tl : TrafficLight) : List LaneLink :=
  tl.controlled_links.filter (fun link =>
    !(tl.phases.any (fun ph => !(link_mem link ph.available_links))))

/-- `Lane` (road_net.py); the `parent_edge` back reference is replaced by
its id. Fields the claims never read (width, speed limit, shape, allowed)
are omitted. -/
structure Lane where
  id : String
  parent_edge_id : String
  index : Nat
  length : Rat := 0
  links : List LaneLink := []
deriving DecidableEq, Repr

/-- `Edge` (road_net.py); junction references are kept as ids. -/
structure Edge where
  id : String
  from_junction_id : String := ""
  to_junction_id : String := ""
  lanes : List Lane := []
deriving DecidableEq, Repr

/-- `RoadNet` (road_net.py): the id-keyed banks, as insertion-ordered
dicts. The junction bank is not consulted by any of the verified code. -/
structure RoadNet where
  edge_bank : List (String × Edge) := []
  lane_bank : List (String × Lane) := []
  traffic_light_bank : List (String × TrafficLight) := []
deriving DecidableEq, Repr

/-- `RoadNet.edges` property: `list(self.edge_bank.values())`. -/
def RoadNet.edges (rn : RoadNet) : List Edge := rn.edge_bank.map (fun p => p.2)

/-- `RoadNet.lanes` property. -/
def RoadNet.lanes (rn : RoadNet) : List Lane := rn.lane_bank.map (fun p => p.2)

/-- `RoadNet.traffic_lights` property. -/
def RoadNet.traffic_lights (rn : RoadNet) : List TrafficLight :=
  rn.traffic_light_bank.map (fun p => p.2)

/-- `RoadNet.get_edge`: `self.edge_bank.get(id)` with default `None`. -/
def RoadNet.get_edge (rn : RoadNet) (id : String) : Option Edge :=
  aget? rn.edge_bank id

/-- `Vehicle` (vehicle.py), as produced by the engines' `get_vehicle_info`
(the CityFlow engine additionally sets a `running` flag). `route` is the
ordered list of edge ids of the vehicle's remaining route. -/
structure Vehicle where
  id : String
  running : Bool := true
  lane_position : Rat := 0
  speed : Rat := 0
  route : List String := []
deriving DecidableEq, Repr

/-- A per-step snapshot of the engine capability surface consumed by the
monitors (`TrafficEnvEngine`): current time, the road net, the per-lane
vehicle-id lists and the per-vehicle info. -/
structure EngineState where
  time : Rat := 0
  road_net : RoadNet := {}
  lane_vehicles : List (String × List String) := []
  vehicles : List (String × Vehicle) := []
deriving DecidableEq, Repr

/-- `engine.get_lane_vehicle_ids(lane)` for the given lane id. -/
def get_lane_vehicle_ids (eng : EngineState) (lane_id : String) : List String :=
  (aget? eng.lane_vehicles lane_id).getD []

/-- `engine.get_vehicle_info(vehicle_id)`; `none` models the engine raising
for an unknown id. -/
def get_vehicle_info? (eng : EngineState) (vid : String) : Option Vehicle :=
  aget? eng.vehicles vid

/-- The 0.1 speed threshold shared by `get_lane_queue_length` and the
waiting test of `GlobalMonitor._on_step`, written in lowest terms so that
kernel evaluation never needs `Nat.gcd`. -/
def waiting_threshold : Rat := ⟨1, 10, by norm_num, by norm_num⟩

theorem waiting_threshold_eq : waiting_threshold = 1 / 10 := by
  rw [waiting_threshold, Rat.mk'_eq_divInt, Rat.divInt_eq_div]
  norm_num

/-- The counting loop of `TrafficEnvEngine.get_lane_queue_length`
(abstract_traffic_env_engine.py lines 160-166): vehicles with speed below
the 0.1 threshold. -/
def count_queued (eng : EngineState) : List String → Nat
  | [] => 0
  | vid :: rest =>
    (match get_vehicle_info? eng vid with
     | some v => if v.speed < waiting_threshold then 1 else 0
     | none => 0) + count_queued eng rest

/-- `TrafficEnvEngine.get_lane_queue_length` at the default 0.1 speed
threshold. -/
def get_lane_queue_length (eng : EngineState) (lane_id : String) : Nat :=
  count_queued eng (get_lane_vehicle_ids eng lane_id)

/-- The list comprehension
`[self.engine.get_vehicle_info(id) for id in vehicle_ids]`;
`none` when some id is unknown to the engine. -/
def get_vehicle_infos (eng : EngineState) : List String → Option (List Vehicle)
  | [] => some []
  | vid :: rest =>
    match get_vehicle_info? eng vid, get_vehicle_infos eng rest with
    | some v, some vs => some (v :: vs)
    | _, _ => none

/-- `Movement` (movement.py): from-edge, to-edge, constituent lanes of the
from-edge, and the controlling traffic light (set during the build, `None`
when uncontrolled). -/
structure Movement where
  from_edge : Edge
  to_edge : Edge
  from_lanes : List Lane
  traffic_light : Option TrafficLight := none
deriving DecidableEq, Repr

/-- `Movement.id`, set in `__post_init__` as
`f'{from_edge.id}_{to_edge.id}'`. -/
def movement_id (m : Movement) : String := m.from_edge.id ++ "_" ++ m.to_edge.id

/-- The state assembled by `MovementRoadNet.build_movements`. `store` is
the heap of `Movement` objects in creation order; the five maps hold
indices into it, mirroring the Python maps holding object references (so
that the in-place mutation of `movement.traffic_light` is visible through
every map). -/
structure BuildState where
  store : List Movement := []
  movement_bank : List (String × Nat) := []
  lane_movement_map : List (String × List Nat) := []
  from_edge_movement_map : List (String × List Nat) := []
  traffic_light_movement_map : List (String × List Nat) := []
  phase_movement_map : List (String × List Nat) := []
deriving DecidableEq, Repr

/-- A finished `MovementRoadNet` is the build state read through the maps. -/
abbrev MovementNet := BuildState

inductive BuildError
  /-- The failure of `Movement.__post_init__` on
  `self.get_edge(to_edge_id) = None` (a lane-link whose destination edge is
  absent from the edge bank). -/
  | graphConsistency
  /-- The `KeyError` of `lane_movement_map[link.from_lane.id]` when a
  phase grants a link whose from-lane originates no movement. -/
  | missingLaneMovements
deriving DecidableEq, Repr

/-- The `edge_lane_map` accumulation of `build_movements` (lines 30-37):
group the edge's lanes by the parent edge of each outgoing link's to-lane,
appending the lane once per link. -/
def edge_lane_map (edge : Edge) : List (String × List Lane) :=
  edge.lanes.foldl
    (fun m lane =>
      lane.links.foldl (fun m link => apush m link.to_lane.parent_edge_id lane) m)
    []

/-- Creation of one `Movement` and its registration in the bank, the
lane map and the from-edge map (build_movements lines 40-53). -/
def add_movement (bs : BuildState) (edge to_edge : Edge)
    (from_lanes : List Lane) : BuildState :=
  let movement : Movement :=
    { from_edge := edge, to_edge := to_edge, from_lanes := from_lanes }
  let idx := bs.store.length
  { bs with
    store := bs.store ++ [movement]
    movement_bank := aset bs.movement_bank (movement_id movement) idx
    lane_movement_map :=
      from_lanes.foldl (fun m l => apush m l.id idx) bs.lane_movement_map
    from_edge_movement_map := apush bs.from_edge_movement_map edge.id idx }

/-- The `for to_edge_id, from_lanes in edge_lane_map.items()` loop of
`build_movements`; `self.get_edge(to_edge_id)` returning `None` makes
`Movement.__post_init__` fail. -/
def process_edge_groups (rn : RoadNet) (edge : Edge) (bs : BuildState) :
    List (String × List Lane) → Except BuildError BuildState
  | [] => .ok bs
  | (to_edge_id, from_lanes) :: rest =>
    match rn.get_edge to_edge_id with
    | none => .error .graphConsistency
    | some to_edge =>
      process_edge_groups rn edge (add_movement bs edge to_edge from_lanes) rest

/-- One iteration of the `for edge in self.edges` loop. -/
def process_edge (rn : RoadNet) (bs : BuildState) (edge : Edge) :
    Except BuildError BuildState :=
  process_edge_groups rn edge bs (edge_lane_map edge)

/-- The whole `for edge in self.edges` loop. -/
def process_edges (rn : RoadNet) (bs : BuildState) :
    List Edge → Except BuildError BuildState
  | [] => .ok bs
  | e :: es =>
    match process_edge rn bs e with
    | .error err => .error err
    | .ok bs' => process_edges rn bs' es

/-- Body of the `for movement in controlled_movements` loop
(build_movements lines 63-71): set `movement.traffic_light` on the stored
object, then add it to the light's and the phase's movement lists unless a
movement of equal value is already listed (Python `in`, which tests object
identity or dataclass equality). -/
def register_controlled_movement (bs : BuildState) (tl : TrafficLight)
    (ph : TrafficLightPhase) (idx : Nat) : BuildState :=
  match bs.store.get? idx with
  | none => bs
  | some m =>
    let m' := { m with traffic_light := some tl }
    let store' := bs.store.set idx m'
    let tl_list := (aget? bs.traffic_light_movement_map tl.id).getD []
    let tl_map' :=
      if tl_list.any (fun j => decide (store'.get? j = some m')) then
        bs.traffic_light_movement_map
      else apush bs.traffic_light_movement_map tl.id idx
    let ph_list := (aget? bs.phase_movement_map (phase_id ph)).getD []
    let ph_map' :=
      if ph_list.any (fun j => decide (store'.get? j = some m')) then
        bs.phase_movement_map
      else apush bs.phase_movement_map (phase_id ph) idx
    { bs with
      store := store'
      traffic_light_movement_map := tl_map'
      phase_movement_map := ph_map' }

/-- The `for link in phase.available_links` loop;
`lane_movement_map[link.from_lane.id]` raises a `KeyError` when the key is
absent. -/
def process_phase_links (bs : BuildState) (tl : TrafficLight)
    (ph : TrafficLightPhase) : List LaneLink → Except BuildError BuildState
  | [] => .ok bs
  | link :: rest =>
    match aget? bs.lane_movement_map link.from_lane.id with
    | none => .error .missingLaneMovements
    | some idxs =>
      process_phase_links
        (idxs.foldl (fun b i => register_controlled_movement b tl ph i) bs)
        tl ph rest

/-- The `for phase in traffic_light.phases` loop, which first initialises
`phase_movement_map[phase.id] = []`. -/
def process_phases (bs : BuildState) (tl : TrafficLight) :
    List TrafficLightPhase → Except BuildError BuildState
  | [] => .ok bs
  | ph :: rest =>
    match
      process_phase_links
        { bs with phase_movement_map := aset bs.phase_movement_map (phase_id ph) [] }
        tl ph ph.available_links
    with
    | .error e => .error e
    | .ok bs' => process_phases bs' tl rest

/-- The `for traffic_light in self.traffic_lights` loop, which first
initialises `traffic_light_movement_map[traffic_light.id] = []`. -/
def process_lights (bs : BuildState) :
    List TrafficLight → Except BuildError BuildState
  | [] => .ok bs
  | tl :: rest =>
    match
      process_phases
        { bs with
          traffic_light_movement_map :=
            aset bs.traffic_light_movement_map tl.id [] }
        tl tl.phases
    with
    | .error e => .error e
    | .ok bs' => process_lights bs' rest

/-- `MovementRoadNet.build_movements`: the edge loop followed by the
traffic-light loop. An exception aborts the build, so no movement net is
returned on error. -/
def build_movements (rn : RoadNet) : Except BuildError MovementNet :=
  match process_edges rn {} rn.edges with
  | .error e => .error e
  | .ok bs => process_lights bs rn.traffic_lights

/-- Dereference a list of store indices into the movement objects they
denote. -/
def deref (net : MovementNet) (idxs : List Nat) : List Movement :=
  idxs.filterMap (fun i => net.store.get? i)

/-- `MovementRoadNet.get_movements_by_lane` (returns `[]` for an unknown
lane). -/
def get_movements_by_lane (net : MovementNet) (lane_id : String) :
    List Movement :=
  deref net ((aget? net.lane_movement_map lane_id).getD [])

/-- `MovementRoadNet.get_movements_by_traffic_light`. -/
def get_movements_by_traffic_light (net : MovementNet) (tl_id : String) :
    List Movement :=
  deref net ((aget? net.traffic_light_movement_map tl_id).getD [])

/-- `MovementRoadNet.get_allowed_movements_by_phase`. -/
def get_allowed_movements_by_phase (net : MovementNet) (ph_id : String) :
    List Movement :=
  deref net ((aget? net.phase_movement_map ph_id).getD [])

/-- `MovementRoadNet.get_conflict_movements` (movement_road_net.py lines
196-227): empty for an uncontrolled movement; otherwise every other
movement listed under the same light conflicts unless some phase of that
light allows both. -/
def get_conflict_movements (net : MovementNet) (movement : Movement) :
    List Movement :=
  match movement.traffic_light with
  | none => []
  | some tl =>
    (get_movements_by_traffic_light net tl.id).filter (fun other =>
      if other = movement then false
      else
        !(tl.phases.any (fun ph =>
          let allowed := get_allowed_movements_by_phase net (phase_id ph)
          decide (other ∈ allowed) && decide (movement ∈ allowed))))

inductive MonError
  /-- The raise sites of `get_movement_sum_queue_length` for a candidate
  vehicle whose route lacks the movement's from-edge (movements_monitor.py
  lines 48-49 and 64-65; at the second site the construction of the error
  message itself faults on `first_vehicle.id` with `first_vehicle = None`,
  but an exception aborts the call either way). -/
  | routeInconsistency
  /-- An engine lookup failure (unknown vehicle id, or Python `max` on an
  empty sequence), unreachable for consistent engine snapshots. -/
  | missingVehicle
deriving DecidableEq, Repr

/-- Python `max(vehicles, key=lambda v: v.lane_position)`: the first
vehicle attaining the maximal lane position (`max` keeps the earlier
element on ties). -/
def max_vehicle : List Vehicle → Option Vehicle
  | [] => none
  | v :: vs =>
    match max_vehicle vs with
    | none => some v
    | some m => some (if m.lane_position > v.lane_position then m else v)

/-- Insertion step of the stable descending sort by lane position. -/
def insert_desc (v : Vehicle) : List Vehicle → List Vehicle
  | [] => [v]
  | w :: ws =>
    if w.lane_position > v.lane_position then w :: insert_desc v ws
    else v :: w :: ws

/-- Python `sorted(vehicles, key=lambda v: -v.lane_position)`: stable,
descending by lane position. -/
def sort_desc (l : List Vehicle) : List Vehicle := l.foldr insert_desc []

/-- Python `route.index(edge_id)`: index of the first occurrence. -/
def route_index (edge_id : String) : List String → Nat
  | [] => 0
  | e :: rest => if e = edge_id then 0 else route_index edge_id rest + 1

/-- The fallback loop of `get_movement_sum_queue_length` (lines 63-72):
scan vehicles in order, fail if one lacks the from-edge in its route, and
return the first one whose from-edge index is not the last route position
(together with that index); `none` when no vehicle qualifies. -/
def find_candidate (from_edge_id : String) :
    List Vehicle → Except MonError (Option (Vehicle × Nat))
  | [] => .ok none
  | v :: vs =>
    if from_edge_id ∈ v.route then
      let ci := route_index from_edge_id v.route
      if ci < v.route.length - 1 then .ok (some (v, ci))
      else find_candidate from_edge_id vs
    else .error .routeInconsistency

/-- The body of the `for lane in movement.from_lanes` loop of
`MovementsMonitor.get_movement_sum_queue_length` (lines 32-80): the
contribution of one constituent lane to the movement's queue length. -/
def movement_lane_queue_contribution (eng : EngineState) (net : MovementNet)
    (movement : Movement) (lane : Lane) : Except MonError Nat :=
  let num_movements := (get_movements_by_lane net lane.id).length
  let lane_queue_length := get_lane_queue_length eng lane.id
  if lane_queue_length = 0 then .ok 0
  else if num_movements = 1 then .ok lane_queue_length
  else
    match get_vehicle_infos eng (get_lane_vehicle_ids eng lane.id) with
    | none => .error .missingVehicle
    | some vehicles =>
      match max_vehicle vehicles with
      | none => .error .missingVehicle
      | some first =>
        if movement.from_edge.id ∈ first.route then
          let ci := route_index movement.from_edge.id first.route
          if ci = first.route.length - 1 then
            match find_candidate movement.from_edge.id
                ((sort_desc vehicles).drop 1) with
            | .error e => .error e
            | .ok none => .ok 0
            | .ok (some (v, ci')) =>
              if v.route.get? (ci' + 1) = some movement.to_edge.id then
                .ok lane_queue_length
              else .ok 0
          else
            if first.route.get? (ci + 1) = some movement.to_edge.id then
              .ok lane_queue_length
            else .ok 0
        else .error .routeInconsistency

/-- The summation over `movement.from_lanes`, with the first exception
propagating to the caller. -/
def sum_queue_length_lanes (eng : EngineState) (net : MovementNet)
    (movement : Movement) : List Lane → Except MonError Nat
  | [] => .ok 0
  | lane :: rest =>
    match movement_lane_queue_contribution eng net movement lane with
    | .error e => .error e
    | .ok c =>
      match sum_queue_length_lanes eng net movement rest with
      | .error e => .error e
      | .ok s => .ok (c + s)

/-- `MovementsMonitor.get_movement_sum_queue_length` on a movement value. -/
def get_movement_sum_queue_length (eng : EngineState) (net : MovementNet)
    (movement : Movement) : Except MonError Nat :=
  sum_queue_length_lanes eng net movement movement.from_lanes

/-- `MovementsMonitor.get_movement_avg_queue_length`: the summed queue
length divided by the number of constituent lanes. -/
def get_movement_avg_queue_length (eng : EngineState) (net : MovementNet)
    (movement : Movement) : Except MonError Rat :=
  (get_movement_sum_queue_length eng net movement).map
    (fun s => (s : Rat) / movement.from_lanes.length)

/-- Modelled from the spec: the per-lane attribution rule of §4.3 as the
spec words it, with the one correction the code forces (candidates are
drawn from all vehicles on the lane, not only the queued ones): examine
vehicles in descending lane-position order, starting with the front
vehicle; the first one with a determinable next edge decides, attributing
the full lane queue length exactly when that next edge is the movement's
destination edge, and zero is attributed when no vehicle qualifies. -/
def spec_front_vehicle_attribution (eng : EngineState) (net : MovementNet)
    (movement : Movement) (lane : Lane) : Except MonError Nat :=
  let num_movements := (get_movements_by_lane net lane.id).length
  let lane_queue_length := get_lane_queue_length eng lane.id
  if lane_queue_length = 0 then .ok 0
  else if num_movements = 1 then .ok lane_queue_length
  else
    match get_vehicle_infos eng (get_lane_vehicle_ids eng lane.id) with
    | none => .error .missingVehicle
    | some vehicles =>
      match find_candidate movement.from_edge.id (sort_desc vehicles) with
      | .error e => .error e
      | .ok none => .ok 0
      | .ok (some (v, ci)) =>
        if v.route.get? (ci + 1) = some movement.to_edge.id then
          .ok lane_queue_length
        else .ok 0

/-- Modelled from the spec: claim C1's candidate rule verbatim — the
candidate front vehicle is "the queued vehicle with the greatest
lane-position" and the fallback tries only queued vehicles; used to
exhibit where the code diverges from the claim. -/
def spec_queued_front_attribution (eng : EngineState) (net : MovementNet)
    (movement : Movement) (lane : Lane) : Except MonError Nat :=
  let num_movements := (get_movements_by_lane net lane.id).length
  let lane_queue_length := get_lane_queue_length eng lane.id
  if lane_queue_length = 0 then .ok 0
  else if num_movements = 1 then .ok lane_queue_length
  else
    match get_vehicle_infos eng (get_lane_vehicle_ids eng lane.id) with
    | none => .error .missingVehicle
    | some vehicles =>
      let queued := vehicles.filter (fun v => v.speed < waiting_threshold)
      match find_candidate movement.from_edge.id (sort_desc queued) with
      | .error e => .error e
      | .ok none => .ok 0
      | .ok (some (v, ci)) =>
        if v.route.get? (ci + 1) = some movement.to_edge.id then
          .ok lane_queue_length
        else .ok 0

/-- The accumulator state of `GlobalMonitor`, as initialised empty by
`attach_to` (global_monitor.py lines 22-31). -/
structure GlobalMonitorState where
  vehicle_bank : List (String × Vehicle) := []
  vehicle_waiting_time : List (String × Rat) := []
  vehicle_stop : List (String × Nat) := []
  vehicle_is_waiting : List (String × Bool) := []
  vehicle_depart_time : List (String × Rat) := []
  vehicle_arrive_time : List (String × Rat) := []
  global_avg_queue_length : List Rat := []
deriving DecidableEq, Repr

/-- The state of a freshly attached `GlobalMonitor` (all accumulators
initialised empty in `attach_to`). -/
def attached_fresh : GlobalMonitorState := {}

/-- `GlobalMonitor.reset` (lines 33-39): clears the six vehicle-keyed
accumulators; `_global_avg_queue_length` is not touched. -/
def monitor_reset (st : GlobalMonitorState) : GlobalMonitorState :=
  { st with
    vehicle_bank := []
    vehicle_waiting_time := []
    vehicle_stop := []
    vehicle_is_waiting := []
    vehicle_depart_time := []
    vehicle_arrive_time := [] }

/-- The per-vehicle body of `GlobalMonitor._on_step` (lines 47-75). -/
def process_vehicle (eng : EngineState) (st : GlobalMonitorState)
    (vid : String) : GlobalMonitorState :=
  match get_vehicle_info? eng vid with
  | none => st
  | some vehicle =>
    if !vehicle.running then
      if (aget? st.vehicle_depart_time vid).isSome
          && !(aget? st.vehicle_arrive_time vid).isSome then
        { st with vehicle_arrive_time := aset st.vehicle_arrive_time vid eng.time }
      else st
    else
      match aget? st.vehicle_bank vid with
      | none =>
        { st with
          vehicle_bank := aset st.vehicle_bank vid vehicle
          vehicle_waiting_time := aset st.vehicle_waiting_time vid 0
          vehicle_stop := aset st.vehicle_stop vid 0
          vehicle_is_waiting := aset st.vehicle_is_waiting vid false
          vehicle_depart_time := aset st.vehicle_depart_time vid eng.time }
      | some stored =>
        let prev_waiting := (aget? st.vehicle_is_waiting vid).getD false
        let curr_waiting := decide (vehicle.speed < waiting_threshold)
        let st1 :=
          { st with
            vehicle_bank :=
              aset st.vehicle_bank vid { stored with speed := vehicle.speed } }
        let st2 :=
          if !prev_waiting && curr_waiting then
            { st1 with
              vehicle_stop :=
                aset st1.vehicle_stop vid
                  ((aget? st1.vehicle_stop vid).getD 0 + 1) }
          else st1
        let st3 :=
          if curr_waiting then
            { st2 with
              vehicle_waiting_time :=
                aset st2.vehicle_waiting_time vid
                  ((aget? st2.vehicle_waiting_time vid).getD 0 + 1) }
          else st2
        { st3 with vehicle_is_waiting := aset st3.vehicle_is_waiting vid curr_waiting }

/-- The `for lane in lanes: for vehicle_id in ...` double loop of
`_on_step`. -/
def process_lanes (eng : EngineState) (st : GlobalMonitorState) :
    List Lane → GlobalMonitorState
  | [] => st
  | lane :: rest =>
    process_lanes eng
      ((get_lane_vehicle_ids eng lane.id).foldl (process_vehicle eng) st) rest

/-- `GlobalMonitor._on_step`: the per-vehicle statistics followed by the
per-step average queue length over all lanes (lines 77-80). -/
def monitor_on_step (eng : EngineState) (st : GlobalMonitorState) :
    GlobalMonitorState :=
  let st := process_lanes eng st eng.road_net.lanes
  let lanes := eng.road_net.lanes
  let sum_queue_length :=
    (lanes.map (fun l => get_lane_queue_length eng l.id)).sum
  let avg_queue_length : Rat :=
    if lanes.length > 0 then (sum_queue_length : Rat) / lanes.length else 0
  { st with
    global_avg_queue_length := st.global_avg_queue_length ++ [avg_queue_length] }

/-- `GlobalMonitor.get_avg_waiting_time`: mean over the recorded waiting
times, `0.0` for an empty population (guarded, no division by zero). -/
def get_avg_waiting_time (st : GlobalMonitorState) : Rat :=
  if st.vehicle_waiting_time.length > 0 then
    (st.vehicle_waiting_time.map (fun p => p.2)).sum / st.vehicle_waiting_time.length
  else 0

/-- `GlobalMonitor.get_avg_stop_times`. -/
def get_avg_stop_times (st : GlobalMonitorState) : Rat :=
  if st.vehicle_stop.length > 0 then
    ((st.vehicle_stop.map (fun p => p.2)).sum : Rat) / st.vehicle_stop.length
  else 0

/-- `GlobalMonitor.get_avg_travel_time` (lines 130-142): over arrived
vehicles that also have a recorded departure, mean of
arrive time − depart time; `0.0` when none qualify. -/
def get_avg_travel_time (st : GlobalMonitorState) : Rat :=
  let acc :=
    st.vehicle_arrive_time.foldl
      (fun (acc : Rat × Nat) p =>
        match aget? st.vehicle_depart_time p.1 with
        | some d => (acc.1 + (p.2 - d), acc.2 + 1)
        | none => acc)
      ((0 : Rat), (0 : Nat))
  if acc.2 > 0 then acc.1 / (acc.2 : Rat) else 0

/-- `GlobalMonitor.get_avg_queue_length`: mean of the per-step series,
`0.0` when the series is empty. -/
def get_avg_queue_length (st : GlobalMonitorState) : Rat :=
  if st.global_avg_queue_length.length > 0 then
    st.global_avg_queue_length.sum / st.global_avg_queue_length.length
  else 0

/-- The `_reset_monitor` handler registered by `Monitor.setup_auto_reset`
(abstract_monitor.py lines 33-38): reset when the observed time is
strictly smaller than the previously recorded one, then record the
observed time. The first component is `_auto_reset_prev_recorded_time`. -/
def auto_reset_step (prev : Option Rat) (t : Rat) (st : GlobalMonitorState) :
    Option Rat × GlobalMonitorState :=
  (some t,
   match prev with
   | some p => if t < p then monitor_reset st else st
   | none => st)

/-- One engine step of a `GlobalMonitor` attached with
`attach_to` (global_monitor.py lines 13-20): the handlers run in
registration order — the auto-reset handler first, then `_on_step`. -/
def monitor_engine_step (eng : EngineState)
    (acc : Option Rat × GlobalMonitorState) :
    Option Rat × GlobalMonitorState :=
  let (prev', st') := auto_reset_step acc.1 eng.time acc.2
  (prev', monitor_on_step eng st')

/-- A run of the attached monitor over a sequence of engine snapshots. -/
def monitor_run (snaps : List EngineState) :
    Option Rat × GlobalMonitorState :=
  snaps.foldl (fun acc eng => monitor_engine_step eng acc) (none, attached_fresh)

/-! ### Generic list and association-list lemmas -/

theorem foldl_preserve {γ α : Type} {P : γ → Prop} {step : γ → α → γ}
    (h : ∀ c x, P c → P (step c x)) :
    ∀ (l : List α) (c : γ), P c → P (l.foldl step c) := by
  intro l
  induction l with
  | nil => intro c hc; exact hc
  | cons x xs ih => intro c hc; exact ih (step c x) (h c x hc)

theorem map_fst_pointwise {α : Type} (m : List (String × α))
    (f : String × α → String × α) (hf : ∀ p, (f p).1 = p.1) :
    (m.map f).map Prod.fst = m.map Prod.fst := by
  induction m with
  | nil => rfl
  | cons p ps ih => simp [hf, ih]

theorem aget?_isSome_key_mem {α : Type} {m : List (String × α)} {k : String}
    (h : (aget? m k).isSome) : k ∈ m.map Prod.fst := by
  unfold aget? at h
  cases hf : List.find? (fun p => p.1 == k) m with
  | none => rw [hf] at h; simp at h
  | some p =>
    have hp : p.1 = k := by simpa using List.find?_some hf
    rw [← hp]
    exact List.mem_map_of_mem _ (List.mem_of_find?_eq_some hf)

theorem apush_keys {α : Type} (m : List (String × List α)) (k : String) (v : α) :
    k ∈ (apush m k v).map Prod.fst := by
  unfold apush
  split
  · next h =>
    rw [map_fst_pointwise]
    · exact aget?_isSome_key_mem h
    · intro p
      split <;> rfl
  · simp

theorem apush_keys_mono {α : Type} (m : List (String × List α)) (k k' : String)
    (v : α) (h : k' ∈ m.map Prod.fst) : k' ∈ (apush m k v).map Prod.fst := by
  unfold apush
  split
  · rw [map_fst_pointwise]
    · exact h
    · intro p
      split <;> rfl
  · rw [List.map_append]
    exact List.mem_append_left _ h

theorem apush_values_ne_nil {α : Type} (m : List (String × List α)) (k : String)
    (v : α) (h : ∀ p ∈ m, p.2 ≠ []) : ∀ p ∈ apush m k v, p.2 ≠ [] := by
  unfold apush
  split
  · intro p hp
    rw [List.mem_map] at hp
    obtain ⟨q, hq, hqp⟩ := hp
    by_cases hk : q.1 == k
    · simp only [hk, if_true] at hqp
      rw [← hqp]
      simp
    · simp only [hk] at hqp
      simp only [Bool.false_eq_true, if_false] at hqp
      rw [← hqp]
      exact h q hq
  · intro p hp
    rcases List.mem_append.mp hp with hl | hr
    · exact h p hl
    · have : p = (k, [v]) := by simpa using hr
      rw [this]
      simp

theorem aget?_mem {α : Type} {m : List (String × α)} {k : String} {v : α}
    (h : aget? m k = some v) : ∃ p ∈ m, p.1 = k ∧ p.2 = v := by
  unfold aget? at h
  rw [Option.map_eq_some'] at h
  obtain ⟨p, hp, hpv⟩ := h
  refine ⟨p, List.mem_of_find?_eq_some hp, ?_, hpv⟩
  have := List.find?_some hp
  simpa using this

/-! ### Claim C3: `TrafficLight.uncontrolled_links` -/

/-- C3 (amended): a controlled lane-link is in `uncontrolled_links` exactly
when it is available in EVERY phase of the light (vacuously all controlled
links when the light has no phases) — not, as the claim states, when it
appears in no phase's available-links set. -/
theorem c3_uncontrolled_links_iff_available_in_all_phases
    (tl : TrafficLight) (link : LaneLink) :
    link ∈ uncontrolled_links tl ↔
      link ∈ tl.controlled_links ∧
        ∀ ph ∈ tl.phases, link_mem link ph.available_links = true := by
  unfold uncontrolled_links
  rw [List.mem_filter]
  constructor
  · rintro ⟨hmem, hp⟩
    refine ⟨hmem, ?_⟩
    intro ph hph
    simp only [Bool.not_eq_true', List.any_eq_false, Bool.not_eq_false] at hp
    exact hp ph hph
  · rintro ⟨hmem, hall⟩
    refine ⟨hmem, ?_⟩
    simp only [Bool.not_eq_true', List.any_eq_false, Bool.not_eq_false]
    exact hall

/-- A light with a single phase granting its single controlled link: the
code reports the link as uncontrolled even though it is granted green in a
phase, refuting C3 as stated ("in no phase's available-links set"). -/
def link_c3 : LaneLink :=
  { from_lane := ⟨"a0", "A"⟩, to_lane := ⟨"x0", "X"⟩, link_lane_id := "a0x0" }

def ph_c3 : TrafficLightPhase :=
  { index := 0, duration := 30, parent_trafficlight_id := "T3",
    available_links := [link_c3] }

def tl_c3 : TrafficLight :=
  { id := "T3", controlled_links := [link_c3], phases := [ph_c3] }

/-- C3 counterexample: `link_c3` is granted green in a phase of `tl_c3`,
yet `uncontrolled_links` contains it. -/
theorem c3_counterexample :
    link_c3 ∈ uncontrolled_links tl_c3 ∧
      ph_c3 ∈ tl_c3.phases ∧ link_mem link_c3 ph_c3.available_links = true := by
  refine ⟨by decide, by decide, by decide⟩

/-! ### Claim C4: aggregates on an empty or just-reset monitor -/

/-- C4 (amended): on a freshly attached monitor all four aggregates are 0;
`reset()` empties the vehicle-keyed accumulators, so the waiting-time,
stop-count and travel-time aggregates are 0 immediately after any reset,
each via its explicit empty-population guard (never dividing); but
`reset()` leaves the per-step queue-length series untouched, so the
queue-length aggregate is unchanged by a reset (it is 0 after a reset only
if the series was already empty, as on a fresh monitor). -/
theorem c4_aggregates_zero_on_empty :
    (get_avg_waiting_time attached_fresh = 0 ∧
     get_avg_stop_times attached_fresh = 0 ∧
     get_avg_travel_time attached_fresh = 0 ∧
     get_avg_queue_length attached_fresh = 0) ∧
    (∀ st, get_avg_waiting_time (monitor_reset st) = 0 ∧
           get_avg_stop_times (monitor_reset st) = 0 ∧
           get_avg_travel_time (monitor_reset st) = 0) ∧
    (∀ st, get_avg_queue_length (monitor_reset st) = get_avg_queue_length st) := by
  refine ⟨⟨rfl, rfl, rfl, rfl⟩, ?_, ?_⟩
  · intro st
    refine ⟨rfl, rfl, ?_⟩
    simp [get_avg_travel_time, monitor_reset]
  · intro st
    rfl

/-- A one-lane, one-stopped-vehicle engine snapshot used to reach a state
with a non-empty queue-length series. -/
def eng_c4 : EngineState :=
  { time := 0
    road_net :=
      { lane_bank := [("L", { id := "L", parent_edge_id := "E", index := 0 })] }
    lane_vehicles := [("L", ["v"])]
    vehicles := [("v", { id := "v", running := true, speed := 0 })] }

/-- C4 counterexample: after one monitored step (whose lane average queue
length 1 is appended to the series), calling `reset()` leaves
`get_avg_queue_length` at 1, not 0 — refuting the claim that every
aggregate returns exactly 0 immediately after `reset()`. -/
theorem c4_counterexample :
    get_avg_queue_length (monitor_reset (monitor_run [eng_c4]).2) = 1 ∧
      get_avg_queue_length (monitor_reset (monitor_run [eng_c4]).2) ≠ 0 := by
  have h : get_avg_queue_length (monitor_reset (monitor_run [eng_c4]).2) = 1 := by
    simp [monitor_run, monitor_engine_step, auto_reset_step, monitor_on_step,
      process_lanes, process_vehicle, get_lane_vehicle_ids, get_vehicle_info?,
      get_lane_queue_length, count_queued, aget?, aset, monitor_reset,
      get_avg_queue_length, attached_fresh, eng_c4, RoadNet.lanes,
      waiting_threshold_eq, List.find?]
  exact ⟨h, by rw [h]; norm_num⟩

/-! ### Claim C6: auto-reset wiring -/

/-- The engine snapshot of `eng_c4` observed at time `t` (same road net,
same single stopped vehicle). -/
def eng_seq (t : Rat) : EngineState := { eng_c4 with time := t }

/-- The monitor state and recorded time after observing the times
0, 1, 2 — the first three observations of the C6 scenario. -/
def run_c6 : Option Rat × GlobalMonitorState :=
  monitor_run [eng_seq 0, eng_seq 1, eng_seq 2]

/-- C6 (amended): the auto-reset handler fires exactly on a strict
decrease of the observed time (equal time does not trigger it), and the
handler order of `attach_to` makes the reset happen before `_on_step`
processes the step's statistics; `reset()` clears the six vehicle-keyed
accumulator maps but leaves the per-step queue-length series in place.
For the observed time sequence [0,1,2,0,1], the state entering `_on_step`
at the fourth observation is the reset of the state accumulated over the
first three. -/
theorem c6_auto_reset_wiring :
    (∀ (t : Rat) st, auto_reset_step (some t) t st = (some t, st)) ∧
    (∀ (t : Rat) st, auto_reset_step none t st = (some t, st)) ∧
    (∀ (eng : EngineState) (p : Rat) st, eng.time < p →
       monitor_engine_step eng (some p, st) =
         (some eng.time, monitor_on_step eng (monitor_reset st))) ∧
    (∀ (eng : EngineState) (p : Rat) st, ¬ eng.time < p →
       monitor_engine_step eng (some p, st) =
         (some eng.time, monitor_on_step eng st)) ∧
    (∀ st, (monitor_reset st).vehicle_bank = [] ∧
           (monitor_reset st).vehicle_waiting_time = [] ∧
           (monitor_reset st).vehicle_stop = [] ∧
           (monitor_reset st).vehicle_is_waiting = [] ∧
           (monitor_reset st).vehicle_depart_time = [] ∧
           (monitor_reset st).vehicle_arrive_time = []) ∧
    (run_c6.1 = some 2 ∧ run_c6.2.vehicle_bank ≠ [] ∧
     monitor_engine_step (eng_seq 0) run_c6 =
       (some 0, monitor_on_step (eng_seq 0) (monitor_reset run_c6.2))) := by
  refine ⟨?_, ?_, ?_, ?_, ?_, ?_, ?_, ?_⟩
  · intro t st
    simp [auto_reset_step, lt_irrefl]
  · intro t st
    rfl
  · intro eng p st h
    simp [monitor_engine_step, auto_reset_step, h]
  · intro eng p st h
    simp [monitor_engine_step, auto_reset_step, h]
  · intro st
    exact ⟨rfl, rfl, rfl, rfl, rfl, rfl⟩
  · rfl
  · decide
  · rfl

/-- C6 witness: the strict-decrease and the no-decrease wiring conjuncts
instantiated on concrete observations. -/
theorem c6_auto_reset_wiring_witness :
    monitor_engine_step (eng_seq 0) (some 2, run_c6.2) =
      (some 0, monitor_on_step (eng_seq 0) (monitor_reset run_c6.2)) ∧
    monitor_engine_step (eng_seq 1) (some 1, attached_fresh) =
      (some 1, monitor_on_step (eng_seq 1) attached_fresh) :=
  ⟨c6_auto_reset_wiring.2.2.1 (eng_seq 0) 2 run_c6.2 (by decide),
   c6_auto_reset_wiring.2.2.2.1 (eng_seq 1) 1 attached_fresh (by decide)⟩

/-- C6 counterexample: at the fourth observation of the scenario
[0,1,2,0,1] the auto-reset clears the vehicle-keyed maps but NOT the
queue-length series: entries accumulated during the first three
observations survive the reset, refuting "all of the monitor's
accumulators are cleared". -/
theorem c6_counterexample :
    (auto_reset_step run_c6.1 (eng_seq 0).time run_c6.2).2.global_avg_queue_length
        = run_c6.2.global_avg_queue_length ∧
      run_c6.2.global_avg_queue_length ≠ [] := by
  exact ⟨rfl, by decide⟩

/-! ### Claim C7: arrivals without a recorded departure -/

/-- Engine snapshot at time 3 with a non-running vehicle `w` (arriving,
never seen departing), a running vehicle `u`, and a non-running vehicle
`a`. -/
def eng_c7 : EngineState :=
  { time := 3
    road_net :=
      { lane_bank := [("L", { id := "L", parent_edge_id := "E", index := 0 })] }
    lane_vehicles := [("L", ["w", "u", "a"])]
    vehicles :=
      [("w", { id := "w", running := false }),
       ("u", { id := "u", running := true, speed := 5 }),
       ("a", { id := "a", running := false })] }

/-- A monitor state in which vehicle `a` has a recorded departure at
time 1. -/
def st_c7 : GlobalMonitorState := { vehicle_depart_time := [("a", 1)] }

/-- C7 (amended): `_on_step` raises no error for a non-running vehicle
with no recorded departure — it is silently skipped, leaving the state
unchanged, and the step is fully processed for every other vehicle. A
non-running vehicle with a recorded departure and no recorded arrival has
its arrival time recorded, and `get_avg_travel_time` then counts
arrival time − departure time for it (4 for a departure at 5 and an
arrival at 9). -/
theorem c7_arrival_without_departure :
    (∀ (eng : EngineState) st vid v,
       get_vehicle_info? eng vid = some v → v.running = false →
       aget? st.vehicle_depart_time vid = none →
       process_vehicle eng st vid = st) ∧
    (∀ (eng : EngineState) st vid v (d : Rat),
       get_vehicle_info? eng vid = some v → v.running = false →
       aget? st.vehicle_depart_time vid = some d →
       aget? st.vehicle_arrive_time vid = none →
       process_vehicle eng st vid =
         { st with vehicle_arrive_time := aset st.vehicle_arrive_time vid eng.time }) ∧
    get_avg_travel_time
        { vehicle_depart_time := [("v", 5)], vehicle_arrive_time := [("v", 9)] } = 4 := by
  refine ⟨?_, ?_, ?_⟩
  · intro eng st vid v h1 h2 h3
    simp [process_vehicle, h1, h2, h3]
  · intro eng st vid v d h1 h2 h3 h4
    simp [process_vehicle, h1, h2, h3, h4]
  · simp [get_avg_travel_time, aget?, List.find?]
    norm_num

/-- C7 witness: the silent skip of `w` (non-running, no departure) and the
arrival recording of `a` (non-running, departure recorded at 1) at
concrete inputs. -/
theorem c7_arrival_without_departure_witness :
    process_vehicle eng_c7 attached_fresh "w" = attached_fresh ∧
    process_vehicle eng_c7 st_c7 "a" =
      { st_c7 with vehicle_arrive_time := aset st_c7.vehicle_arrive_time "a" 3 } :=
  ⟨c7_arrival_without_departure.1 eng_c7 attached_fresh "w"
      { id := "w", running := false } (by decide) (by decide) (by decide),
   c7_arrival_without_departure.2.1 eng_c7 st_c7 "a"
      { id := "a", running := false } 1 (by decide) (by decide) (by decide) (by decide)⟩

/-- C7 counterexample: vehicle `w` arrives (is seen non-running) with no
recorded departure, yet the step completes normally — no exception is
raised (the embedding of `_on_step` is a total function, mirroring the
absence of any raise in the source), `w` is recorded nowhere, and the
other vehicles of the step are processed (`u` gets a departure time). -/
theorem c7_counterexample :
    process_vehicle eng_c7 attached_fresh "w" = attached_fresh ∧
      aget? (monitor_on_step eng_c7 attached_fresh).vehicle_arrive_time "w" = none ∧
      aget? (monitor_on_step eng_c7 attached_fresh).vehicle_depart_time "u" = some 3 := by
  refine ⟨by decide, by decide, by decide⟩

/-! ### Claims C2 and C5: conflict analysis -/

instance {ε α : Type} [DecidableEq ε] [DecidableEq α] :
    DecidableEq (Except ε α) := fun x y =>
  match x, y with
  | .ok a, .ok b =>
    match decEq a b with
    | isTrue h => isTrue (h ▸ rfl)
    | isFalse h => isFalse (fun hc => h (by injection hc))
  | .error e, .error f =>
    match decEq e f with
    | isTrue h => isTrue (h ▸ rfl)
    | isFalse h => isFalse (fun hc => h (by injection hc))
  | .ok _, .error _ => isFalse (fun hc => by injection hc)
  | .error _, .ok _ => isFalse (fun hc => by injection hc)

/-- Membership characterization of `get_conflict_movements`: `x` conflicts
with `m` exactly when `m` has a controlling light, `x` is listed under that
light, `x ≠ m`, and no phase of the light allows both. -/
theorem mem_get_conflict_movements_iff (net : MovementNet) (m x : Movement) :
    x ∈ get_conflict_movements net m ↔
      ∃ tl, m.traffic_light = some tl ∧
        x ∈ get_movements_by_traffic_light net tl.id ∧ x ≠ m ∧
        ∀ ph ∈ tl.phases,
          ¬(x ∈ get_allowed_movements_by_phase net (phase_id ph) ∧
            m ∈ get_allowed_movements_by_phase net (phase_id ph)) := by
  cases h : m.traffic_light with
  | none => simp [get_conflict_movements, h]
  | some tl =>
    simp only [get_conflict_movements, h]
    rw [List.mem_filter]
    constructor
    · rintro ⟨hmem, hpred⟩
      by_cases hx : x = m
      · rw [if_pos hx] at hpred
        cases hpred
      · rw [if_neg hx, Bool.not_eq_true', List.any_eq_false] at hpred
        refine ⟨tl, rfl, hmem, hx, ?_⟩
        intro ph hph hcon
        have := hpred ph hph
        simp [hcon.1, hcon.2] at this
    · rintro ⟨tl', htl', hmem, hx, hph⟩
      injection htl' with htl'
      subst htl'
      refine ⟨hmem, ?_⟩
      rw [if_neg hx, Bool.not_eq_true', List.any_eq_false]
      intro ph hphm
      have hnot := hph ph hphm
      intro habs
      have habs' :
          (decide (x ∈ get_allowed_movements_by_phase net (phase_id ph)) &&
           decide (m ∈ get_allowed_movements_by_phase net (phase_id ph))) = true := habs
      rw [Bool.and_eq_true] at habs'
      exact hnot ⟨of_decide_eq_true habs'.1, of_decide_eq_true habs'.2⟩

/-- The C2/C5 scenario road net: edges EA, EB, EC each with one lane
linking to edge X, one light TL with phase 0 granting the EA and EB links
and phase 1 granting only the EC link. -/
def link_sa : LaneLink :=
  { from_lane := ⟨"a0", "EA"⟩, to_lane := ⟨"x0", "X"⟩, link_lane_id := "" }

def link_sb : LaneLink :=
  { from_lane := ⟨"b0", "EB"⟩, to_lane := ⟨"x0", "X"⟩, link_lane_id := "" }

def link_sc : LaneLink :=
  { from_lane := ⟨"c0", "EC"⟩, to_lane := ⟨"x0", "X"⟩, link_lane_id := "" }

def lane_sa : Lane := { id := "a0", parent_edge_id := "EA", index := 0, links := [link_sa] }

def lane_sb : Lane := { id := "b0", parent_edge_id := "EB", index := 0, links := [link_sb] }

def lane_sc : Lane := { id := "c0", parent_edge_id := "EC", index := 0, links := [link_sc] }

def lane_sx : Lane := { id := "x0", parent_edge_id := "X", index := 0 }

def edge_sa : Edge := { id := "EA", lanes := [lane_sa] }

def edge_sb : Edge := { id := "EB", lanes := [lane_sb] }

def edge_sc : Edge := { id := "EC", lanes := [lane_sc] }

def edge_sx : Edge := { id := "X", lanes := [lane_sx] }

def ph0_s : TrafficLightPhase :=
  { index := 0, duration := 10, parent_trafficlight_id := "TL",
    available_links := [link_sa, link_sb] }

def ph1_s : TrafficLightPhase :=
  { index := 1, duration := 10, parent_trafficlight_id := "TL",
    available_links := [link_sc] }

def tl_s : TrafficLight :=
  { id := "TL", controlled_links := [link_sa, link_sb, link_sc],
    phases := [ph0_s, ph1_s] }

def rn_s : RoadNet :=
  { edge_bank :=
      [("EA", edge_sa), ("EB", edge_sb), ("EC", edge_sc), ("X", edge_sx)]
    lane_bank :=
      [("a0", lane_sa), ("b0", lane_sb), ("c0", lane_sc), ("x0", lane_sx)]
    traffic_light_bank := [("TL", tl_s)] }

/-- The three movements the build produces for `rn_s` (A = EA→X,
B = EB→X, C = EC→X, all controlled by TL). -/
def mov_A : Movement :=
  { from_edge := edge_sa, to_edge := edge_sx, from_lanes := [lane_sa],
    traffic_light := some tl_s }

def mov_B : Movement :=
  { from_edge := edge_sb, to_edge := edge_sx, from_lanes := [lane_sb],
    traffic_light := some tl_s }

def mov_C : Movement :=
  { from_edge := edge_sc, to_edge := edge_sx, from_lanes := [lane_sc],
    traffic_light := some tl_s }

/-- The movement net built from `rn_s`. -/
def net_s : MovementNet := ((build_movements rn_s).toOption).getD {}

/-- C2 (amended): the general conflict rule holds as claimed — for a
movement with a controlling light, its conflicts are exactly the other
movements listed under the same light sharing no phase with it, and a
movement with no controlling light has no conflicts. In the two-phase
scenario (phase 0 allows A and B, phase 1 allows only C) however,
`conflicts_of(A) = {C}` — not the empty set the claim states — while
`conflicts_of(C) = {A, B}` as claimed (and `conflicts_of(B) = {C}`). -/
theorem c2_conflict_rule :
    (∀ (net : MovementNet) (m x : Movement),
       x ∈ get_conflict_movements net m ↔
         ∃ tl, m.traffic_light = some tl ∧
           x ∈ get_movements_by_traffic_light net tl.id ∧ x ≠ m ∧
           ∀ ph ∈ tl.phases,
             ¬(x ∈ get_allowed_movements_by_phase net (phase_id ph) ∧
               m ∈ get_allowed_movements_by_phase net (phase_id ph))) ∧
    (∀ (net : MovementNet) (m : Movement),
       m.traffic_light = none → get_conflict_movements net m = []) ∧
    (build_movements rn_s = .ok net_s ∧ net_s.store = [mov_A, mov_B, mov_C]) ∧
    (get_conflict_movements net_s mov_A = [mov_C] ∧
     get_conflict_movements net_s mov_B = [mov_C] ∧
     get_conflict_movements net_s mov_C = [mov_A, mov_B]) := by
  refine ⟨mem_get_conflict_movements_iff, ?_, by decide, by decide⟩
  intro net m h
  simp [get_conflict_movements, h]

/-- C2 witness: the uncontrolled-movement conjunct instantiated on a
concrete movement with no controlling light. -/
theorem c2_conflict_rule_witness :
    get_conflict_movements net_s
      { from_edge := edge_sa, to_edge := edge_sx, from_lanes := [lane_sa] } = [] :=
  c2_conflict_rule.2.1 net_s
    { from_edge := edge_sa, to_edge := edge_sx, from_lanes := [lane_sa] } rfl

/-- C2 counterexample: in the claim's own scenario the code returns
`conflicts_of(A) = [C]`, not the empty set: no phase of TL grants A and C
together, so C conflicts with A. -/
theorem c2_counterexample :
    build_movements rn_s = .ok net_s ∧
      get_conflict_movements net_s mov_A = [mov_C] ∧
      [mov_C] ≠ ([] : List Movement) := by
  refine ⟨by decide, by decide, by decide⟩

/-- The maps of the net associate each movement index listed under a light
key with a movement whose controlling light carries that key. Holds for
builds in which no lane-link is granted by two different lights. -/
def light_map_consistent (net : MovementNet) : Bool :=
  net.traffic_light_movement_map.all (fun entry =>
    entry.2.all (fun i =>
      match net.store.get? i with
      | some m =>
        match m.traffic_light with
        | some tl => tl.id == entry.1
        | none => false
      | none => true))

/-- A movement carrying a controlling light is listed under that light in
the net's light map. -/
def listed_under_own_light (net : MovementNet) (m : Movement) : Bool :=
  match m.traffic_light with
  | some tl => decide (m ∈ get_movements_by_traffic_light net tl.id)
  | none => true

/-- Two movements whose controlling lights share an id carry equal
lights. -/
def controlling_lights_agree (m1 m2 : Movement) : Bool :=
  match m1.traffic_light, m2.traffic_light with
  | some tl, some tl' => if tl.id = tl'.id then decide (tl = tl') else true
  | _, _ => true

theorem controlling_lights_agree_symm {m1 m2 : Movement}
    (h : controlling_lights_agree m1 m2 = true) :
    controlling_lights_agree m2 m1 = true := by
  unfold controlling_lights_agree at h ⊢
  cases h1 : m1.traffic_light with
  | none => cases m2.traffic_light <;> rfl
  | some tl =>
    cases h2 : m2.traffic_light with
    | none => rfl
    | some tl' =>
      rw [h1, h2] at h
      have h' : (if tl.id = tl'.id then decide (tl = tl') else true) = true := h
      show (if tl'.id = tl.id then decide (tl' = tl) else true) = true
      by_cases hid : tl'.id = tl.id
      · rw [if_pos hid]
        rw [if_pos hid.symm] at h'
        have := of_decide_eq_true h'
        simp [this]
      · rw [if_neg hid]

theorem conflict_symm_aux {net : MovementNet} {m1 m2 : Movement}
    (hcons : light_map_consistent net = true)
    (hl1 : listed_under_own_light net m1 = true)
    (hagree : controlling_lights_agree m1 m2 = true)
    (h : m2 ∈ get_conflict_movements net m1) :
    m1 ∈ get_conflict_movements net m2 := by
  rw [mem_get_conflict_movements_iff] at h
  obtain ⟨tl1, htl1, hmem2, hne, hph⟩ := h
  unfold get_movements_by_traffic_light at hmem2
  cases haget : aget? net.traffic_light_movement_map tl1.id with
  | none =>
    rw [haget] at hmem2
    simp [deref] at hmem2
  | some idxs =>
    rw [haget] at hmem2
    simp only [Option.getD_some] at hmem2
    unfold deref at hmem2
    rw [List.mem_filterMap] at hmem2
    obtain ⟨i, hi, hstore⟩ := hmem2
    obtain ⟨entry, hentry, hfst, hsnd⟩ := aget?_mem haget
    rw [light_map_consistent, List.all_eq_true] at hcons
    have hinner := hcons entry hentry
    rw [List.all_eq_true] at hinner
    have hm2 := hinner i (by rw [hsnd]; exact hi)
    rw [hstore] at hm2
    have hm2' :
        (match m2.traffic_light with
         | some tl => tl.id == entry.1
         | none => false) = true := hm2
    cases htl2 : m2.traffic_light with
    | none =>
      rw [htl2] at hm2'
      have hfalse : (false : Bool) = true := hm2'
      cases hfalse
    | some tl2 =>
      rw [htl2] at hm2'
      have hbeq : (tl2.id == entry.1) = true := hm2'
      have hid : tl2.id = tl1.id := (eq_of_beq hbeq).trans hfst
      have htleq : tl1 = tl2 := by
        unfold controlling_lights_agree at hagree
        rw [htl1, htl2] at hagree
        have hagree' :
            (if tl1.id = tl2.id then decide (tl1 = tl2) else true) = true := hagree
        rw [if_pos hid.symm] at hagree'
        exact of_decide_eq_true hagree'
      subst htleq
      rw [mem_get_conflict_movements_iff]
      refine ⟨tl1, htl2, ?_, fun hx => hne hx.symm, ?_⟩
      · unfold listed_under_own_light at hl1
        rw [htl1] at hl1
        have hl1' : decide (m1 ∈ get_movements_by_traffic_light net tl1.id) = true := hl1
        exact of_decide_eq_true hl1'
      · intro ph hp hcontra
        exact hph ph hp ⟨hcontra.2, hcontra.1⟩

/-- C5 (amended): self-conflict never occurs; the conflict relation is
symmetric on every movement net in which (i) each movement listed under a
light key carries a controlling light with that id, (ii) each of the two
movements carrying a controlling light is listed under it, and (iii) the
two movements' lights agree when their ids do — invariants that hold for
builds in which no lane-link is granted by more than one traffic light.
When a lane's movement is re-assigned to a second light, the code's
relation is asymmetric (see the counterexample). -/
theorem c5_conflicts_irreflexive_and_symmetric :
    (∀ (net : MovementNet) (m : Movement), m ∉ get_conflict_movements net m) ∧
    (∀ (net : MovementNet) (m1 m2 : Movement),
       light_map_consistent net = true →
       listed_under_own_light net m1 = true →
       listed_under_own_light net m2 = true →
       controlling_lights_agree m1 m2 = true →
       (m2 ∈ get_conflict_movements net m1 ↔ m1 ∈ get_conflict_movements net m2)) := by
  constructor
  · intro net m hmem
    rw [mem_get_conflict_movements_iff] at hmem
    obtain ⟨tl, _, _, hne, _⟩ := hmem
    exact hne rfl
  · intro net m1 m2 hcons hl1 hl2 hagree
    constructor
    · exact conflict_symm_aux hcons hl1 hagree
    · exact conflict_symm_aux hcons hl2 (controlling_lights_agree_symm hagree)

/-- C5 witness: irreflexivity and symmetry instantiated on the built
scenario net (hypotheses discharged by evaluation). -/
theorem c5_witness :
    mov_A ∉ get_conflict_movements net_s mov_A ∧
      (mov_C ∈ get_conflict_movements net_s mov_A ↔
        mov_A ∈ get_conflict_movements net_s mov_C) :=
  ⟨c5_conflicts_irreflexive_and_symmetric.1 net_s mov_A,
   c5_conflicts_irreflexive_and_symmetric.2 net_s mov_A mov_C
     (by decide) (by decide) (by decide) (by decide)⟩

/-- A road net in which the EB→X movement's lane-link is granted by two
lights: L1 (phases over the EA and EB links) and then L2 (one phase over
the EB link). The build leaves the EB→X movement listed under L1 while its
controlling-light reference is overwritten to L2. -/
def link_ua : LaneLink :=
  { from_lane := ⟨"ua0", "UA"⟩, to_lane := ⟨"ux0", "UX"⟩, link_lane_id := "" }

def link_ub : LaneLink :=
  { from_lane := ⟨"ub0", "UB"⟩, to_lane := ⟨"ux0", "UX"⟩, link_lane_id := "" }

def lane_ua : Lane := { id := "ua0", parent_edge_id := "UA", index := 0, links := [link_ua] }

def lane_ub : Lane := { id := "ub0", parent_edge_id := "UB", index := 0, links := [link_ub] }

def lane_ux : Lane := { id := "ux0", parent_edge_id := "UX", index := 0 }

def edge_ua : Edge := { id := "UA", lanes := [lane_ua] }

def edge_ub : Edge := { id := "UB", lanes := [lane_ub] }

def edge_ux : Edge := { id := "UX", lanes := [lane_ux] }

def tl_u1 : TrafficLight :=
  { id := "L1", controlled_links := [link_ua, link_ub]
    phases :=
      [{ index := 0, duration := 10, parent_trafficlight_id := "L1",
         available_links := [link_ua] },
       { index := 1, duration := 10, parent_trafficlight_id := "L1",
         available_links := [link_ub] }] }

def tl_u2 : TrafficLight :=
  { id := "L2", controlled_links := [link_ub]
    phases :=
      [{ index := 0, duration := 10, parent_trafficlight_id := "L2",
         available_links := [link_ub] }] }

def rn_u : RoadNet :=
  { edge_bank := [("UA", edge_ua), ("UB", edge_ub), ("UX", edge_ux)]
    lane_bank := [("ua0", lane_ua), ("ub0", lane_ub), ("ux0", lane_ux)]
    traffic_light_bank := [("L1", tl_u1), ("L2", tl_u2)] }

def mov_UA : Movement :=
  { from_edge := edge_ua, to_edge := edge_ux, from_lanes := [lane_ua],
    traffic_light := some tl_u1 }

def mov_UB : Movement :=
  { from_edge := edge_ub, to_edge := edge_ux, from_lanes := [lane_ub],
    traffic_light := some tl_u2 }

/-- C5 counterexample: in the movement graph built from `rn_u` both
movements have controlling lights, UB→X conflicts with UA→X, but not
conversely — the conflict relation of the code is not symmetric on every
built graph. -/
theorem c5_counterexample :
    (build_movements rn_u).map (fun net =>
        (net.store, get_conflict_movements net mov_UA,
         get_conflict_movements net mov_UB))
      = .ok ([mov_UA, mov_UB], [mov_UB], []) ∧
    (mov_UB ∈ [mov_UB] ∧ mov_UA ∉ ([] : List Movement)) := by
  refine ⟨by decide, by decide, by decide⟩

/-! ### Claim C1: per-lane queue attribution -/

theorem count_queued_le_length (eng : EngineState) (l : List String) :
    count_queued eng l ≤ l.length := by
  induction l with
  | nil => simp [count_queued]
  | cons vid rest ih =>
    simp only [count_queued, List.length_cons]
    have hone : ∀ o : Option Vehicle,
        (match o with
         | some v => if v.speed < waiting_threshold then 1 else 0
         | none => 0) ≤ 1 := by
      intro o
      cases o with
      | none => simp
      | some v => simp only; split <;> simp
    have := hone (get_vehicle_info? eng vid)
    omega

theorem get_vehicle_infos_length {eng : EngineState} :
    ∀ {l : List String} {vs : List Vehicle},
      get_vehicle_infos eng l = some vs → vs.length = l.length := by
  intro l
  induction l with
  | nil =>
    intro vs h
    simp only [get_vehicle_infos, Option.some.injEq] at h
    rw [← h]
    rfl
  | cons vid rest ih =>
    intro vs h
    simp only [get_vehicle_infos] at h
    cases h1 : get_vehicle_info? eng vid with
    | none => rw [h1] at h; cases h
    | some v =>
      rw [h1] at h
      cases h2 : get_vehicle_infos eng rest with
      | none => rw [h2] at h; cases h
      | some tail =>
        rw [h2] at h
        injection h with h
        rw [← h]
        simp [ih h2]

theorem max_vehicle_of_ne_nil {l : List Vehicle} (h : l ≠ []) :
    ∃ m, max_vehicle l = some m := by
  cases l with
  | nil => exact absurd rfl h
  | cons v vs =>
    cases hm : max_vehicle vs with
    | none => exact ⟨v, by simp [max_vehicle, hm]⟩
    | some m =>
      exact ⟨if m.lane_position > v.lane_position then m else v,
        by simp [max_vehicle, hm]⟩

/-- The head of the stable descending sort is Python's
`max(_, key=lane_position)` — the first vehicle attaining the maximum. -/
theorem sort_desc_head : ∀ l : List Vehicle, (sort_desc l).head? = max_vehicle l := by
  intro l
  induction l with
  | nil => rfl
  | cons v vs ih =>
    have hstep : sort_desc (v :: vs) = insert_desc v (sort_desc vs) := rfl
    rw [hstep]
    cases hs : sort_desc vs with
    | nil =>
      have hmv : max_vehicle vs = none := by rw [← ih, hs]; rfl
      simp [insert_desc, max_vehicle, hmv]
    | cons w ws =>
      have hmv : max_vehicle vs = some w := by rw [← ih, hs]; rfl
      simp only [insert_desc]
      by_cases hc : w.lane_position > v.lane_position
      · rw [if_pos hc]
        simp [max_vehicle, hmv, hc]
      · rw [if_neg hc]
        simp [max_vehicle, hmv, hc]

theorem route_index_lt_length {edge_id : String} :
    ∀ {l : List String}, edge_id ∈ l → route_index edge_id l < l.length := by
  intro l
  induction l with
  | nil => intro h; cases h
  | cons e rest ih =>
    intro h
    simp only [route_index]
    by_cases he : e = edge_id
    · rw [if_pos he]; simp
    · rw [if_neg he]
      have hmem : edge_id ∈ rest := by
        cases h with
        | head => exact absurd rfl he
        | tail _ h => exact h
      have := ih hmem
      simp only [List.length_cons]
      omega

/-- The C1 scenario road net: edge E0 with a single lane L0 linking to a
lane of E1 and a lane of E2, so that L0 feeds the two movements
X = E0→E1 and Y = E0→E2. -/
def link_q1 : LaneLink :=
  { from_lane := ⟨"L0", "E0"⟩, to_lane := ⟨"e1l", "E1"⟩, link_lane_id := "" }

def link_q2 : LaneLink :=
  { from_lane := ⟨"L0", "E0"⟩, to_lane := ⟨"e2l", "E2"⟩, link_lane_id := "" }

def lane_q0 : Lane :=
  { id := "L0", parent_edge_id := "E0", index := 0, links := [link_q1, link_q2] }

def lane_q1 : Lane := { id := "e1l", parent_edge_id := "E1", index := 0 }

def lane_q2 : Lane := { id := "e2l", parent_edge_id := "E2", index := 0 }

def edge_q0 : Edge := { id := "E0", lanes := [lane_q0] }

def edge_q1 : Edge := { id := "E1", lanes := [lane_q1] }

def edge_q2 : Edge := { id := "E2", lanes := [lane_q2] }

def rn_q : RoadNet :=
  { edge_bank := [("E0", edge_q0), ("E1", edge_q1), ("E2", edge_q2)]
    lane_bank := [("L0", lane_q0), ("e1l", lane_q1), ("e2l", lane_q2)] }

def mov_X : Movement :=
  { from_edge := edge_q0, to_edge := edge_q1, from_lanes := [lane_q0] }

def mov_Y : Movement :=
  { from_edge := edge_q0, to_edge := edge_q2, from_lanes := [lane_q0] }

/-- The movement net built from `rn_q`. -/
def net_q : MovementNet := ((build_movements rn_q).toOption).getD {}

/-- The scenario engine snapshot: two queued vehicles on L0, the front one
(greatest lane position) with remaining route E0→E1. -/
def eng_q : EngineState :=
  { time := 0
    road_net := rn_q
    lane_vehicles := [("L0", ["v1", "v2"]), ("e1l", []), ("e2l", [])]
    vehicles :=
      [("v1", { id := "v1", lane_position := 10, speed := 0, route := ["E0", "E1"] }),
       ("v2", { id := "v2", lane_position := 5, speed := 0, route := ["E0", "E1"] })] }

/-- The counterexample engine snapshot: the front vehicle of L0 is MOVING
(speed 5) with remaining route E0→E2, while the only queued vehicle (v2,
further back) has remaining route E0→E1. -/
def eng_qc : EngineState :=
  { time := 0
    road_net := rn_q
    lane_vehicles := [("L0", ["v1", "v2"]), ("e1l", []), ("e2l", [])]
    vehicles :=
      [("v1", { id := "v1", lane_position := 10, speed := 5, route := ["E0", "E2"] }),
       ("v2", { id := "v2", lane_position := 5, speed := 0, route := ["E0", "E1"] })] }

/-- C1 (amended): the per-lane attribution of
`get_movement_sum_queue_length` coincides with the spec's rule once the
candidate pool is corrected to all vehicles on the lane (not only the
queued ones): candidates are examined in descending lane-position order
starting from the front vehicle; the first with a determinable next edge
attributes the full lane queue length to the movement iff that next edge
is the movement's destination edge, and zero is attributed when no
candidate qualifies. In the scenario (lane feeding X and Y, two queued
vehicles, front vehicle's route continuing to X's destination):
`sum_queue_length(X) = 2` and `sum_queue_length(Y) = 0`. -/
theorem c1_lane_attribution :
    (∀ (eng : EngineState) (net : MovementNet) (movement : Movement) (lane : Lane),
        movement_lane_queue_contribution eng net movement lane =
          spec_front_vehicle_attribution eng net movement lane) ∧
    (build_movements rn_q = .ok net_q ∧ net_q.store = [mov_X, mov_Y] ∧
     get_movement_sum_queue_length eng_q net_q mov_X = .ok 2 ∧
     get_movement_sum_queue_length eng_q net_q mov_Y = .ok 0) := by
  constructor
  · intro eng net movement lane
    unfold movement_lane_queue_contribution spec_front_vehicle_attribution
    by_cases hq : get_lane_queue_length eng lane.id = 0
    · simp [hq]
    · simp only [hq, if_false]
      by_cases hk : (get_movements_by_lane net lane.id).length = 1
      · simp [hk]
      · simp only [hk, if_false]
        cases hinf : get_vehicle_infos eng (get_lane_vehicle_ids eng lane.id) with
        | none => rfl
        | some vehicles =>
          have hids : get_lane_vehicle_ids eng lane.id ≠ [] := by
            intro hnil
            apply hq
            unfold get_lane_queue_length
            rw [hnil]
            rfl
          have hlen : vehicles.length = (get_lane_vehicle_ids eng lane.id).length :=
            get_vehicle_infos_length hinf
          have hne : vehicles ≠ [] := by
            intro hnil
            apply hids
            rw [hnil] at hlen
            exact List.eq_nil_of_length_eq_zero hlen.symm
          obtain ⟨first, hmax⟩ := max_vehicle_of_ne_nil hne
          have hh : (sort_desc vehicles).head? = some first := by
            rw [sort_desc_head]
            exact hmax
          obtain ⟨tail, hsort⟩ : ∃ tail, sort_desc vehicles = first :: tail := by
            cases hs : sort_desc vehicles with
            | nil => rw [hs] at hh; cases hh
            | cons a as =>
              rw [hs] at hh
              injection hh with hh
              exact ⟨as, by rw [hh]⟩
          simp only [hmax, hsort, List.drop_succ_cons, List.drop_zero,
            find_candidate]
          by_cases hr : movement.from_edge.id ∈ first.route
          · simp only [hr, if_true]
            have hlt : route_index movement.from_edge.id first.route
                < first.route.length := route_index_lt_length hr
            by_cases hci : route_index movement.from_edge.id first.route
                = first.route.length - 1
            · have hnlt : ¬ route_index movement.from_edge.id first.route
                  < first.route.length - 1 := by omega
              simp only [hci, if_true, hnlt, if_false]
              rw [if_neg (Nat.lt_irrefl _)]
            · have hlt1 : route_index movement.from_edge.id first.route
                  < first.route.length - 1 := by omega
              simp only [hci, if_false, hlt1, if_true]
          · simp only [hr, if_false]
  · refine ⟨by decide, by decide, by decide, by decide⟩

/-- C1 counterexample: on `eng_qc` the code's candidate is the MOVING
front vehicle (route continuing to E2), so the queue of one vehicle is
attributed to Y = E0→E2 and nothing to X = E0→E1; the claim's rule — the
candidate is the QUEUED vehicle with the greatest lane position, here v2
with route continuing to E1 — attributes the full queue to X and nothing
to Y. -/
theorem c1_counterexample :
    get_movement_sum_queue_length eng_qc net_q mov_X = .ok 0 ∧
      get_movement_sum_queue_length eng_qc net_q mov_Y = .ok 1 ∧
      spec_queued_front_attribution eng_qc net_q mov_X lane_q0 = .ok 1 ∧
      spec_queued_front_attribution eng_qc net_q mov_Y lane_q0 = .ok 0 := by
  refine ⟨by decide, by decide, by decide, by decide⟩

/-! ### Claim C8: RouteInconsistencyError on a route missing the
from-edge -/

theorem sum_error_of_prefix_ok (eng : EngineState) (net : MovementNet)
    (movement : Movement) :
    ∀ (pre : List Lane) (lane : Lane) (post : List Lane) (e : MonError),
      (∀ l ∈ pre, ∃ n, movement_lane_queue_contribution eng net movement l = .ok n) →
      movement_lane_queue_contribution eng net movement lane = .error e →
      sum_queue_length_lanes eng net movement (pre ++ lane :: post) = .error e := by
  intro pre
  induction pre with
  | nil =>
    intro lane post e hpre herr
    simp only [List.nil_append, sum_queue_length_lanes]
    rw [herr]
  | cons p ps ih =>
    intro lane post e hpre herr
    obtain ⟨n, hn⟩ := hpre p (List.mem_cons_self p ps)
    simp only [List.cons_append, sum_queue_length_lanes, hn, List.append_eq,
      ih lane post e (fun l hl => hpre l (List.mem_cons_of_mem p hl)) herr]

/-- C8: on a lane shared by more than one movement with a non-zero queue,
a candidate front vehicle whose remaining route does not contain the
movement's originating edge makes the per-lane attribution fail with the
route-inconsistency error, and this error propagates out of
`get_movement_sum_queue_length` to the caller unchanged (no retry: the
remaining lanes are not processed). -/
theorem c8_route_inconsistency_error :
    (∀ (eng : EngineState) (net : MovementNet) (movement : Movement)
       (lane : Lane) (vehicles : List Vehicle) (first : Vehicle),
       1 < (get_movements_by_lane net lane.id).length →
       get_lane_queue_length eng lane.id ≠ 0 →
       get_vehicle_infos eng (get_lane_vehicle_ids eng lane.id) = some vehicles →
       max_vehicle vehicles = some first →
       movement.from_edge.id ∉ first.route →
       movement_lane_queue_contribution eng net movement lane =
         .error .routeInconsistency) ∧
    (∀ (eng : EngineState) (net : MovementNet) (movement : Movement)
       (pre : List Lane) (lane : Lane) (post : List Lane) (e : MonError),
       movement.from_lanes = pre ++ lane :: post →
       (∀ l ∈ pre, ∃ n, movement_lane_queue_contribution eng net movement l = .ok n) →
       movement_lane_queue_contribution eng net movement lane = .error e →
       get_movement_sum_queue_length eng net movement = .error e) := by
  constructor
  · intro eng net movement lane vehicles first h1 h2 hinf hmax hroute
    have hk : (get_movements_by_lane net lane.id).length ≠ 1 := by omega
    simp [movement_lane_queue_contribution, hinf, hmax, h2, hk, hroute]
  · intro eng net movement pre lane post e hlanes hpre herr
    unfold get_movement_sum_queue_length
    rw [hlanes]
    exact sum_error_of_prefix_ok eng net movement pre lane post e hpre herr

/-- A queued vehicle on the shared lane L0 whose remaining route (just
"EZ") never contains the movement's from-edge E0. -/
def veh_u1 : Vehicle :=
  { id := "u1", lane_position := 5, speed := 0, route := ["EZ"] }

def eng_c8 : EngineState :=
  { time := 0
    road_net := rn_q
    lane_vehicles := [("L0", ["u1"]), ("e1l", []), ("e2l", [])]
    vehicles := [("u1", veh_u1)] }

/-- C8 witness: the error raised on lane L0 and its propagation out of the
whole sum at a concrete input. -/
theorem c8_route_inconsistency_error_witness :
    movement_lane_queue_contribution eng_c8 net_q mov_X lane_q0 =
        .error .routeInconsistency ∧
      get_movement_sum_queue_length eng_c8 net_q mov_X =
        .error .routeInconsistency :=
  have h1 :=
    c8_route_inconsistency_error.1 eng_c8 net_q mov_X lane_q0 [veh_u1] veh_u1
      (by decide) (by decide) (by decide) (by decide) (by decide)
  ⟨h1,
   c8_route_inconsistency_error.2 eng_c8 net_q mov_X [] lane_q0 []
     .routeInconsistency (by decide)
     (fun l hl => absurd hl (List.not_mem_nil l)) h1⟩

/-! ### Claim C9: build failure on a missing destination edge -/

theorem process_edge_groups_error_only {rn : RoadNet} {edge : Edge} :
    ∀ {groups : List (String × List Lane)} {bs : BuildState} {e : BuildError},
      process_edge_groups rn edge bs groups = .error e → e = .graphConsistency := by
  intro groups
  induction groups with
  | nil =>
    intro bs e h
    exact Except.noConfusion h
  | cons g gs ih =>
    intro bs e h
    obtain ⟨gid, glanes⟩ := g
    simp only [process_edge_groups] at h
    cases hg : rn.get_edge gid with
    | none =>
      rw [hg] at h
      have h' : (Except.error BuildError.graphConsistency :
          Except BuildError BuildState) = .error e := h
      injection h' with h'
      exact h'.symm
    | some te =>
      rw [hg] at h
      have h' : process_edge_groups rn edge
          (add_movement bs edge te glanes) gs = .error e := h
      exact ih h'

theorem process_edge_groups_error_of_mem {rn : RoadNet} {edge : Edge} :
    ∀ {groups : List (String × List Lane)} (bs : BuildState),
      (∃ p ∈ groups, rn.get_edge p.1 = none) →
      process_edge_groups rn edge bs groups = .error .graphConsistency := by
  intro groups
  induction groups with
  | nil =>
    intro bs h
    obtain ⟨p, hp, _⟩ := h
    cases hp
  | cons g gs ih =>
    intro bs h
    obtain ⟨gid, glanes⟩ := g
    simp only [process_edge_groups]
    cases hg : rn.get_edge gid with
    | none => rfl
    | some te =>
      obtain ⟨p, hp, hnone⟩ := h
      rcases List.mem_cons.mp hp with heq | hmem
      · subst heq
        have h2 : rn.get_edge gid = none := hnone
        rw [h2] at hg
        exact Option.noConfusion hg
      · exact ih (add_movement bs edge te glanes) ⟨p, hmem, hnone⟩

theorem process_edges_error {rn : RoadNet} :
    ∀ {edges : List Edge} (bs : BuildState),
      (∃ edge ∈ edges, ∃ p ∈ edge_lane_map edge, rn.get_edge p.1 = none) →
      process_edges rn bs edges = .error .graphConsistency := by
  intro edges
  induction edges with
  | nil =>
    intro bs h
    obtain ⟨e, he, _⟩ := h
    cases he
  | cons ed eds ih =>
    intro bs h
    simp only [process_edges]
    cases hres : process_edge rn bs ed with
    | error err =>
      have hres' : process_edge_groups rn ed bs (edge_lane_map ed) = .error err := hres
      have heq := process_edge_groups_error_only hres'
      rw [heq]
    | ok bs' =>
      obtain ⟨e2, he2, hp⟩ := h
      rcases List.mem_cons.mp he2 with heq | hmem
      · subst heq
        have habort : process_edge_groups rn e2 bs (edge_lane_map e2)
            = .error .graphConsistency :=
          process_edge_groups_error_of_mem bs hp
        have hres' : process_edge_groups rn e2 bs (edge_lane_map e2) = .ok bs' := hres
        rw [habort] at hres'
        exact Except.noConfusion hres'
      · exact ih bs' ⟨e2, hmem, hp⟩

/-- A lane-link's destination-edge key is among the keys of the edge's
`edge_lane_map` grouping. -/
theorem mem_keys_edge_lane_map {edge : Edge} {lane : Lane} {link : LaneLink}
    (hlane : lane ∈ edge.lanes) (hlink : link ∈ lane.links) :
    link.to_lane.parent_edge_id ∈ (edge_lane_map edge).map Prod.fst := by
  unfold edge_lane_map
  obtain ⟨l1, l2, hsplit⟩ := List.append_of_mem hlane
  rw [hsplit, List.foldl_append, List.foldl_cons]
  refine foldl_preserve
    (P := fun (m : List (String × List Lane)) =>
      link.to_lane.parent_edge_id ∈ m.map Prod.fst)
    (fun c x hc =>
      foldl_preserve
        (P := fun (m : List (String × List Lane)) =>
          link.to_lane.parent_edge_id ∈ m.map Prod.fst)
        (fun c2 lk hc2 => apush_keys_mono c2 lk.to_lane.parent_edge_id _ x hc2)
        x.links c hc)
    l2 _ ?_
  obtain ⟨k1, k2, hks⟩ := List.append_of_mem hlink
  rw [hks, List.foldl_append, List.foldl_cons]
  refine foldl_preserve
    (P := fun (m : List (String × List Lane)) =>
      link.to_lane.parent_edge_id ∈ m.map Prod.fst)
    (fun c2 lk hc2 => apush_keys_mono c2 lk.to_lane.parent_edge_id _ lane hc2)
    k2 _ ?_
  exact apush_keys _ _ _

/-- C9: if some lane-link of the road net points at a to-lane whose parent
edge is absent from the edge bank, `build_movements` fails with the
graph-consistency error (the `None` returned by `get_edge` faults
`Movement.__post_init__`): the whole build aborts and no movement net is
returned. -/
theorem c9_build_aborts_on_missing_edge :
    ∀ (rn : RoadNet) (edge : Edge) (lane : Lane) (link : LaneLink),
      edge ∈ rn.edges → lane ∈ edge.lanes → link ∈ lane.links →
      rn.get_edge link.to_lane.parent_edge_id = none →
      build_movements rn = .error .graphConsistency := by
  intro rn edge lane link hedge hlane hlink habs
  unfold build_movements
  have hkey := mem_keys_edge_lane_map hlane hlink
  obtain ⟨p, hp, hpfst⟩ := List.mem_map.mp hkey
  have herr : process_edges rn {} rn.edges = .error .graphConsistency :=
    process_edges_error {} ⟨edge, hedge, p, hp, by rw [hpfst]; exact habs⟩
  rw [herr]

/-- A road net with a lane-link whose to-lane's parent edge "MISSING" is
absent from the edge bank. -/
def link_d : LaneLink :=
  { from_lane := ⟨"d0", "D0"⟩, to_lane := ⟨"zz", "MISSING"⟩, link_lane_id := "" }

def lane_d0 : Lane :=
  { id := "d0", parent_edge_id := "D0", index := 0, links := [link_d] }

def edge_d0 : Edge := { id := "D0", lanes := [lane_d0] }

def rn_d : RoadNet :=
  { edge_bank := [("D0", edge_d0)], lane_bank := [("d0", lane_d0)] }

/-- C9 witness: the abort on a concrete dangling net. -/
theorem c9_build_aborts_on_missing_edge_witness :
    build_movements rn_d = .error .graphConsistency :=
  c9_build_aborts_on_missing_edge rn_d edge_d0 lane_d0 link_d
    (by decide) (by decide) (by decide) (by decide)

/-! ### Claim C10: every built movement has constituent lanes -/

theorem mem_of_get? {α : Type} :
    ∀ {l : List α} {n : Nat} {a : α}, l.get? n = some a → a ∈ l := by
  intro l
  induction l with
  | nil => intro n a h; cases h
  | cons x xs ih =>
    intro n a h
    cases n with
    | zero =>
      injection h with h
      rw [h]
      exact List.mem_cons_self a xs
    | succ k => exact List.mem_cons_of_mem x (ih h)

/-- The lane groups of `edge_lane_map` are never empty: a key is created
only by appending its first lane. -/
theorem edge_lane_map_values_ne_nil (edge : Edge) :
    ∀ p ∈ edge_lane_map edge, p.2 ≠ [] := by
  unfold edge_lane_map
  refine foldl_preserve
    (P := fun (m : List (String × List Lane)) => ∀ p ∈ m, p.2 ≠ [])
    (fun c x hc =>
      foldl_preserve
        (P := fun (m : List (String × List Lane)) => ∀ p ∈ m, p.2 ≠ [])
        (fun c2 lk hc2 => apush_values_ne_nil c2 lk.to_lane.parent_edge_id x hc2)
        x.links c hc)
    edge.lanes [] ?_
  intro p hp
  cases hp

theorem process_edge_groups_store {rn : RoadNet} {edge : Edge} :
    ∀ {groups : List (String × List Lane)} {bs bs' : BuildState},
      (∀ p ∈ groups, p.2 ≠ []) →
      (∀ m ∈ bs.store, m.from_lanes ≠ []) →
      process_edge_groups rn edge bs groups = .ok bs' →
      ∀ m ∈ bs'.store, m.from_lanes ≠ [] := by
  intro groups
  induction groups with
  | nil =>
    intro bs bs' hg hs h
    injection h with h
    rw [← h]
    exact hs
  | cons g gs ih =>
    intro bs bs' hg hs h
    obtain ⟨gid, glanes⟩ := g
    simp only [process_edge_groups] at h
    cases he : rn.get_edge gid with
    | none =>
      rw [he] at h
      exact Except.noConfusion h
    | some te =>
      rw [he] at h
      have h' : process_edge_groups rn edge
          (add_movement bs edge te glanes) gs = .ok bs' := h
      refine ih (fun p hp => hg p (List.mem_cons_of_mem _ hp)) ?_ h'
      intro m hm
      have hm' : m ∈ bs.store ++
          [{ from_edge := edge, to_edge := te, from_lanes := glanes }] := hm
      rcases List.mem_append.mp hm' with h1 | h2
      · exact hs m h1
      · have hme : m = { from_edge := edge, to_edge := te, from_lanes := glanes } := by
          simpa using h2
        rw [hme]
        exact hg (gid, glanes) (List.mem_cons_self _ _)

theorem process_edges_store {rn : RoadNet} :
    ∀ {edges : List Edge} {bs bs' : BuildState},
      (∀ m ∈ bs.store, m.from_lanes ≠ []) →
      process_edges rn bs edges = .ok bs' →
      ∀ m ∈ bs'.store, m.from_lanes ≠ [] := by
  intro edges
  induction edges with
  | nil =>
    intro bs bs' hs h
    injection h with h
    rw [← h]
    exact hs
  | cons ed eds ih =>
    intro bs bs' hs h
    simp only [process_edges] at h
    cases hres : process_edge rn bs ed with
    | error err =>
      rw [hres] at h
      exact Except.noConfusion h
    | ok bs1 =>
      rw [hres] at h
      have h' : process_edges rn bs1 eds = .ok bs' := h
      have hres' : process_edge_groups rn ed bs (edge_lane_map ed) = .ok bs1 := hres
      exact ih (process_edge_groups_store (edge_lane_map_values_ne_nil ed) hs hres') h'

theorem register_controlled_movement_store {bs : BuildState}
    {tl : TrafficLight} {ph : TrafficLightPhase} {idx : Nat}
    (hs : ∀ m ∈ bs.store, m.from_lanes ≠ []) :
    ∀ m ∈ (register_controlled_movement bs tl ph idx).store, m.from_lanes ≠ [] := by
  intro m hm
  unfold register_controlled_movement at hm
  cases hg : bs.store.get? idx with
  | none =>
    rw [hg] at hm
    exact hs m hm
  | some m0 =>
    rw [hg] at hm
    have hm' : m ∈ bs.store.set idx { m0 with traffic_light := some tl } := hm
    rcases List.mem_or_eq_of_mem_set hm' with h1 | h2
    · exact hs m h1
    · rw [h2]
      exact hs m0 (mem_of_get? hg)

theorem process_phase_links_store {tl : TrafficLight} {ph : TrafficLightPhase} :
    ∀ {links : List LaneLink} {bs bs' : BuildState},
      (∀ m ∈ bs.store, m.from_lanes ≠ []) →
      process_phase_links bs tl ph links = .ok bs' →
      ∀ m ∈ bs'.store, m.from_lanes ≠ [] := by
  intro links
  induction links with
  | nil =>
    intro bs bs' hs h
    injection h with h
    rw [← h]
    exact hs
  | cons link rest ih =>
    intro bs bs' hs h
    simp only [process_phase_links] at h
    cases ha : aget? bs.lane_movement_map link.from_lane.id with
    | none =>
      rw [ha] at h
      exact Except.noConfusion h
    | some idxs =>
      rw [ha] at h
      have h' : process_phase_links
          (idxs.foldl (fun b i => register_controlled_movement b tl ph i) bs)
          tl ph rest = .ok bs' := h
      refine ih ?_ h'
      exact foldl_preserve
        (P := fun (b : BuildState) => ∀ m ∈ b.store, m.from_lanes ≠ [])
        (fun b i hb => register_controlled_movement_store hb) idxs bs hs

theorem process_phases_store {tl : TrafficLight} :
    ∀ {phs : List TrafficLightPhase} {bs bs' : BuildState},
      (∀ m ∈ bs.store, m.from_lanes ≠ []) →
      process_phases bs tl phs = .ok bs' →
      ∀ m ∈ bs'.store, m.from_lanes ≠ [] := by
  intro phs
  induction phs with
  | nil =>
    intro bs bs' hs h
    injection h with h
    rw [← h]
    exact hs
  | cons ph rest ih =>
    intro bs bs' hs h
    simp only [process_phases] at h
    cases hl : process_phase_links
        { bs with phase_movement_map := aset bs.phase_movement_map (phase_id ph) [] }
        tl ph ph.available_links with
    | error e =>
      rw [hl] at h
      exact Except.noConfusion h
    | ok bs1 =>
      rw [hl] at h
      have h' : process_phases bs1 tl rest = .ok bs' := h
      have hs' : ∀ m ∈ ({ bs with
          phase_movement_map :=
            aset bs.phase_movement_map (phase_id ph) [] } : BuildState).store,
          m.from_lanes ≠ [] := hs
      exact ih (process_phase_links_store hs' hl) h'

theorem process_lights_store :
    ∀ {tls : List TrafficLight} {bs bs' : BuildState},
      (∀ m ∈ bs.store, m.from_lanes ≠ []) →
      process_lights bs tls = .ok bs' →
      ∀ m ∈ bs'.store, m.from_lanes ≠ [] := by
  intro tls
  induction tls with
  | nil =>
    intro bs bs' hs h
    injection h with h
    rw [← h]
    exact hs
  | cons tl rest ih =>
    intro bs bs' hs h
    simp only [process_lights] at h
    cases hl : process_phases
        { bs with
          traffic_light_movement_map :=
            aset bs.traffic_light_movement_map tl.id [] }
        tl tl.phases with
    | error e =>
      rw [hl] at h
      exact Except.noConfusion h
    | ok bs1 =>
      rw [hl] at h
      have h' : process_lights bs1 rest = .ok bs' := h
      have hs' : ∀ m ∈ ({ bs with
          traffic_light_movement_map :=
            aset bs.traffic_light_movement_map tl.id [] } : BuildState).store,
          m.from_lanes ≠ [] := hs
      exact ih (process_phases_store hs' hl) h'

/-- C10: every movement in the store of a successfully built movement net
has a non-empty `from_lanes` list (each destination-edge group contains at
least the lane whose link created it, and the light loop only rewrites the
`traffic_light` field); hence the divisor of
`get_movement_avg_queue_length` is non-zero for every built movement, and
the average equals the summed queue length divided by the (positive) lane
count. -/
theorem c10_built_movements_have_lanes :
    (∀ (rn : RoadNet) (net : MovementNet), build_movements rn = .ok net →
       ∀ m ∈ net.store, m.from_lanes ≠ [] ∧ ((m.from_lanes.length : Rat) ≠ 0)) ∧
    (∀ (eng : EngineState) (net : MovementNet) (movement : Movement) (s : Nat),
       get_movement_sum_queue_length eng net movement = .ok s →
       get_movement_avg_queue_length eng net movement =
         .ok ((s : Rat) / movement.from_lanes.length)) := by
  constructor
  · intro rn net h m hm
    have hlanes : m.from_lanes ≠ [] := by
      unfold build_movements at h
      cases hpe : process_edges rn {} rn.edges with
      | error e =>
        rw [hpe] at h
        exact Except.noConfusion h
      | ok bs0 =>
        rw [hpe] at h
        have h' : process_lights bs0 rn.traffic_lights = .ok net := h
        have hbs0 : ∀ m ∈ bs0.store, m.from_lanes ≠ [] :=
          process_edges_store (fun m hm => (List.not_mem_nil m hm).elim) hpe
        exact process_lights_store hbs0 h' m hm
    refine ⟨hlanes, ?_⟩
    have hpos : 0 < m.from_lanes.length := List.length_pos.mpr hlanes
    exact_mod_cast Nat.pos_iff_ne_zero.mp hpos
  · intro eng net movement s h
    unfold get_movement_avg_queue_length
    rw [h]
    rfl

/-- C10 witness: on the built scenario net, X = E0→E1 has one constituent
lane and its average queue length is the sum divided by one. -/
theorem c10_built_movements_have_lanes_witness :
    (mov_X.from_lanes ≠ [] ∧ ((mov_X.from_lanes.length : Rat) ≠ 0)) ∧
      get_movement_avg_queue_length eng_q net_q mov_X =
        .ok ((2 : Nat) / (mov_X.from_lanes.length : Rat)) :=
  ⟨c10_built_movements_have_lanes.1 rn_q net_q (by decide) mov_X (by decide),
   c10_built_movements_have_lanes.2 eng_q net_q mov_X 2 (by decide)⟩

end SiliconTraffic
